import Mathlib

/-
Verification of the asynchronous PulseAudio client adapter
(`pulsectl_asyncio/pulsectl_async.py`).

We build a shallow embedding of the `PulseAsync` class: its two
level-triggered asyncio events (`_connected`, `_disconnected`), the native
context and mainloop handles, the set of waiting futures maintained by the
`_pulse_op_cb` context manager, and the single event-subscription slot
(`event_callback`) with its queue.  Futures are identified by natural
numbers; their settlement states are tracked in a map `futures : Nat →
FutureState`.  Callback-driven code is modelled as explicit state
transformers; where the outcome of an `await` depends on the scheduler
(which task of a race finishes first, what a native call returns), that
outcome is an explicit parameter of the Lean function, and the function
mirrors the Python control flow on each outcome.
-/

namespace PulsectlAsyncio

/-- Exceptions that appear in `pulsectl_async.py`.  `runtimeError` is the
plain Python `RuntimeError` raised by `subscribe_events` on a second
concurrent subscription (the spec's taxonomy calls it `UsageError`);
`pulseError` is `PulseError('Failed to connect to pulseaudio server')`. -/
inductive PulseErr
  | operationFailed
  | disconnected
  | pulseError
  | operationInvalid
  | indexError
  | runtimeError
  | timeoutError
  deriving DecidableEq, Repr

/-- Settlement state of an asyncio future.  A future is *done* exactly when
it is not `pending`; `set_exception` on a done future raises
`InvalidStateError`. -/
inductive FutureState
  | pending
  | resolved
  | rejected (e : PulseErr)
  | cancelled
  deriving DecidableEq, Repr

/-- The libpulse context states (`PA_CONTEXT_*`). -/
inductive CtxState
  | unconnected
  | connecting
  | authorizing
  | settingName
  | ready
  | failed
  | terminated
  deriving DecidableEq, Repr

/-- Numeric values of the `PA_CONTEXT_*` constants, used because
`_pulse_state_cb` compares `state >= c.PA_CONTEXT_READY`. -/
def CtxState.code : CtxState → Nat
  | .unconnected => 0
  | .connecting => 1
  | .authorizing => 2
  | .settingName => 3
  | .ready => 4
  | .failed => 5
  | .terminated => 6

/-- A `PulseEventInfo(ev_t, ev_fac, index)` notification value. -/
structure PulseEventInfo where
  t : Nat
  facility : Nat
  index : Nat
  deriving DecidableEq, Repr

/-- The mutable state of a `PulseAsync` instance that the verified claims
touch: the `_connected` / `_disconnected` events (as Booleans: set or not),
the native context handle `_ctx` and mainloop wrapper `_loop` (as optional
handles), the `waiting_futures` set (as a list of future ids), the
settlement state of every future, and the `event_callback` subscription
slot with the queue the active subscription feeds. -/
structure PulseAsyncState where
  connected : Bool
  disconnected : Bool
  ctx : Option Nat
  loop : Option Nat
  waiting_futures : List Nat
  futures : Nat → FutureState
  event_callback : Bool
  events_queue : List PulseEventInfo

/-- The loop `for future in self.waiting_futures:
future.set_exception(PulseDisconnected())` in `_pulse_state_cb`.  Each
pending future becomes rejected with `PulseDisconnected`; if a future in
the set is already done, asyncio's `set_exception` raises
`InvalidStateError`, which aborts the loop (the exception escapes into the
ctypes callback boundary), leaving the remaining futures untouched. -/
def rejectAll : (Nat → FutureState) → List Nat → (Nat → FutureState)
  | fs, [] => fs
  | fs, i :: rest =>
    if fs i = FutureState.pending then
      rejectAll (fun j => if j = i then FutureState.rejected PulseErr.disconnected else fs j) rest
    else fs

/-- `PulseAsync._pulse_state_cb`: on `PA_CONTEXT_READY` clear
`_disconnected` and set `_connected`; on `PA_CONTEXT_FAILED` /
`PA_CONTEXT_TERMINATED` clear `_connected`, set `_disconnected`, and reject
every waiting future with `PulseDisconnected`. -/
def pulse_state_cb (s : PulseAsyncState) (st : CtxState) : PulseAsyncState :=
  if 4 ≤ st.code then
    if st = CtxState.ready then
      { s with disconnected := false, connected := true }
    else if st = CtxState.failed ∨ st = CtxState.terminated then
      { s with connected := false, disconnected := true,
               futures := rejectAll s.futures s.waiting_futures }
    else s
  else s

theorem rejectAll_not_mem (ids : List Nat) : ∀ (fs : Nat → FutureState) (i : Nat), i ∉ ids →
    rejectAll fs ids i = fs i := by
  induction ids with
  | nil => intro fs i _; rfl
  | cons j rest ih =>
    intro fs i h
    simp only [List.mem_cons, not_or] at h
    rw [rejectAll]
    split
    · rw [ih _ _ h.2]
      simp [h.1]
    · rfl

theorem rejectAll_rejects (ids : List Nat) : ∀ (fs : Nat → FutureState), ids.Nodup →
    (∀ i ∈ ids, fs i = FutureState.pending) →
    ∀ i ∈ ids, rejectAll fs ids i = FutureState.rejected PulseErr.disconnected := by
  induction ids with
  | nil => intro fs _ _ i hi; cases hi
  | cons j rest ih =>
    intro fs hnd hp i hi
    have hpj : fs j = FutureState.pending := hp j (List.mem_cons_self j rest)
    have hjr : j ∉ rest := (List.nodup_cons.mp hnd).1
    have hrest : rest.Nodup := (List.nodup_cons.mp hnd).2
    rw [rejectAll, if_pos hpj]
    rcases List.mem_cons.mp hi with h | h
    · subst h
      rw [rejectAll_not_mem rest _ i hjr]
      simp
    · refine ih _ hrest (fun k hk => ?_) i h
      have hkj : k ≠ j := fun e => hjr (e ▸ hk)
      simp [hkj, hp k (List.mem_cons_of_mem j hk)]

/-- A reachable failing state for claim C1.  Future 0 is already resolved
but still in `waiting_futures`: its completion callback ran
`loop.call_soon_threadsafe(self.future.set_result, None)` and the
`set_result` has executed, while the discard in `__aexit__`'s `finally`
runs only after the awaiting coroutine resumes, at least one scheduler
turn later.  (Cancelling the task suspended at `await self.future` opens
the same window: the future is cancelled synchronously, the discard is
deferred.)  Future 1 is a pending operation. -/
def stateC1 : PulseAsyncState :=
  { connected := true, disconnected := false, ctx := some 1, loop := some 1,
    waiting_futures := [0, 1],
    futures := fun i => if i = 0 then FutureState.resolved else FutureState.pending,
    event_callback := false, events_queue := [] }

/-- C1 fails on the code: when `_pulse_state_cb` observes the `failed`
transition in `stateC1`, its loop calls `set_exception` on the already
resolved future 0, which raises `InvalidStateError` and aborts the loop at
the ctypes callback boundary.  The pending future 1 — a member of the
pending set at that moment — is *not* settled with `PulseDisconnected` by
that callback invocation (nor ever after: its awaiter sits in a raw
`await self.future` in `__aexit__`, not routed through the disconnect
race), although `_disconnected` is already set.  The claim, and the spec's
"no pending operation outlives a disconnection", say future 1 must be
rejected here. -/
theorem pulse_state_cb_disconnect_bug :
    (pulse_state_cb stateC1 CtxState.failed).disconnected = true ∧
    (pulse_state_cb stateC1 CtxState.failed).futures 0 = FutureState.resolved ∧
    (pulse_state_cb stateC1 CtxState.failed).futures 1 = FutureState.pending ∧
    1 ∈ (pulse_state_cb stateC1 CtxState.failed).waiting_futures :=
  ⟨rfl, rfl, rfl, by decide⟩

/-- The failure above needs a done future in the set: when every member of
`waiting_futures` is still pending (and the set, being a Python set, has
no duplicates), the loop in `_pulse_state_cb` does reject each of them
with `PulseDisconnected` — the intended behaviour that the race breaks. -/
theorem pulse_state_cb_rejects_when_all_pending (s : PulseAsyncState) (st : CtxState)
    (hnd : s.waiting_futures.Nodup)
    (hp : ∀ i ∈ s.waiting_futures, s.futures i = FutureState.pending)
    (hst : st = CtxState.failed ∨ st = CtxState.terminated) :
    (pulse_state_cb s st).disconnected = true ∧ (pulse_state_cb s st).connected = false ∧
    ∀ i ∈ s.waiting_futures,
      (pulse_state_cb s st).futures i = FutureState.rejected PulseErr.disconnected := by
  rcases hst with h | h <;> subst h <;>
    exact ⟨rfl, rfl, fun i hi => rejectAll_rejects _ _ hnd hp i hi⟩

/-! Below: the disconnect-race combinator `_wait_disconnect_or`. -/

/-- Which of the two tasks created by `_wait_disconnect_or` finishes first.
`otherFirst r`: the wrapped coroutine's task finishes first with outcome
`r`.  `disconnectFirst r`: the `_disconnected.wait()` task finishes first
(`r` is the outcome the coroutine would eventually produce — unused by the
code, carried to state the claim).  `bothDone r`: both tasks are already
done when `asyncio.wait` returns.  `outerCancelled`: the `await
asyncio.wait(...)` itself raises (e.g. the combinator's own task is
cancelled from outside). -/
inductive RaceOutcome (α : Type)
  | otherFirst (r : Except PulseErr α)
  | disconnectFirst (r : Except PulseErr α)
  | bothDone (r : Except PulseErr α)
  | outerCancelled
  deriving Repr

/-- Result of `_wait_disconnect_or`: a value, a raised `PulseErr`, or a
re-raised `CancelledError`. -/
inductive RaceResult (α : Type)
  | value (a : α)
  | raised (e : PulseErr)
  | cancelledError
  deriving Repr

/-- Task-level operations `_wait_disconnect_or` can perform on its two
inner tasks: requesting cancellation (`task.cancel()`), and awaiting a
task after cancelling it.  The source performs no `awaitTask` at all;
the constructor exists so the absence can be stated. -/
inductive RaceEv
  | cancelDisc
  | cancelOther
  | awaitDisc
  | awaitOther
  deriving DecidableEq, Repr

/-- `PulseAsync._wait_disconnect_or`, with its trace of task operations.
Mirrors the source: `asyncio.wait(..., return_when=FIRST_COMPLETED)`; on a
`BaseException` from the await, cancel both tasks and re-raise; otherwise
cancel every pending task; if the wrapped task is still pending raise
`PulseDisconnected()`, else return `other_task.result()` (which re-raises
the task's exception if it failed). -/
def wait_disconnect_or {α : Type} (o : RaceOutcome α) : RaceResult α × List RaceEv :=
  match o with
  | .outerCancelled => (RaceResult.cancelledError, [RaceEv.cancelDisc, RaceEv.cancelOther])
  | .otherFirst r =>
    (match r with
     | .ok a => RaceResult.value a
     | .error e => RaceResult.raised e, [RaceEv.cancelDisc])
  | .bothDone r =>
    (match r with
     | .ok a => RaceResult.value a
     | .error e => RaceResult.raised e, [])
  | .disconnectFirst _ => (RaceResult.raised PulseErr.disconnected, [RaceEv.cancelOther])

/-- C2: if the wrapped awaitable finishes before the disconnection signal,
`_wait_disconnect_or` returns its result (re-raising its exception when it
failed); if the disconnection signal wins, it raises `PulseDisconnected`
regardless of the awaitable's eventual outcome. -/
theorem wait_disconnect_or_race (r : Except PulseErr Nat) :
    ((wait_disconnect_or (RaceOutcome.otherFirst r)).1 =
      match r with
      | .ok a => RaceResult.value a
      | .error e => RaceResult.raised e) ∧
    (wait_disconnect_or (RaceOutcome.disconnectFirst r)).1 =
      RaceResult.raised PulseErr.disconnected := by
  cases r <;> exact ⟨rfl, rfl⟩

/-- C3 counterexample: when the disconnection signal wins against a
coroutine that would have succeeded, the loser's cancellation is requested
but the loser is never awaited before the combinator raises — the trace of
task operations is exactly `[cancelOther]`, with no `awaitOther`. -/
theorem wait_disconnect_or_no_await_cex :
    (wait_disconnect_or (RaceOutcome.disconnectFirst (Except.ok (0 : Nat)))).2 =
      [RaceEv.cancelOther] ∧
    RaceEv.awaitOther ∉ (wait_disconnect_or (RaceOutcome.disconnectFirst (Except.ok (0 : Nat)))).2 := by
  constructor
  · rfl
  · decide

/-- C3 amended: whichever side loses the race has its cancellation
*requested* (`task.cancel()`) before the combinator returns or raises, and
on outer cancellation both tasks are cancelled; but the combinator never
awaits a cancelled task, so the losing task's completion is not awaited. -/
theorem wait_disconnect_or_cancels_loser (r : Except PulseErr Nat) :
    RaceEv.cancelOther ∈ (wait_disconnect_or (RaceOutcome.disconnectFirst r)).2 ∧
    RaceEv.awaitOther ∉ (wait_disconnect_or (RaceOutcome.disconnectFirst r)).2 ∧
    RaceEv.cancelDisc ∈ (wait_disconnect_or (RaceOutcome.otherFirst r)).2 ∧
    RaceEv.awaitDisc ∉ (wait_disconnect_or (RaceOutcome.otherFirst r)).2 ∧
    RaceEv.cancelDisc ∈ (wait_disconnect_or (RaceOutcome.outerCancelled : RaceOutcome Nat)).2 ∧
    RaceEv.cancelOther ∈ (wait_disconnect_or (RaceOutcome.outerCancelled : RaceOutcome Nat)).2 := by
  cases r <;> simp [wait_disconnect_or]

/-! Below: the request/future bridge `_pulse_op_cb` (async context
manager). -/

/-- `_pulse_op_cb.__aenter__`: create a fresh future (id `fid`, state
`pending`) and add it to `waiting_futures` (`set.add`: no duplicate is
inserted). -/
def op_cb_aenter (s : PulseAsyncState) (fid : Nat) : PulseAsyncState :=
  { s with
    futures := fun j => if j = fid then FutureState.pending else s.futures j,
    waiting_futures :=
      if fid ∈ s.waiting_futures then s.waiting_futures else fid :: s.waiting_futures }

/-- How the `await self.future` in `_pulse_op_cb.__aexit__` ends when it
runs: the future resolves, the future is rejected with some error, or the
enclosing coroutine is cancelled mid-await. -/
inductive AwaitRes
  | success
  | failed (e : PulseErr)
  | cancelledDuringAwait
  deriving DecidableEq, Repr

/-- What `__aexit__` re-raises (nothing, a `PulseErr`, or
`CancelledError`). -/
inductive ExitRaise
  | nothing
  | raised (e : PulseErr)
  | cancelledError
  deriving DecidableEq, Repr

/-- `_pulse_op_cb.__aexit__`: `try: if not exc_type: await self.future
finally: waiting_futures.discard(future)`.  `excPending = true` models a
non-`None` `exc_type` (an exception, including cancellation, already left
the `async with` body), in which case the future is not awaited; in every
case the `finally` discards the future from the set. -/
def op_cb_aexit (s : PulseAsyncState) (fid : Nat) (excPending : Bool) (res : AwaitRes) :
    ExitRaise × PulseAsyncState :=
  let s2 := { s with waiting_futures := s.waiting_futures.filter (fun j => j ≠ fid) }
  if excPending then (ExitRaise.nothing, s2)
  else
    match res with
    | .success => (ExitRaise.nothing, s2)
    | .failed e => (ExitRaise.raised e, s2)
    | .cancelledDuringAwait => (ExitRaise.cancelledError, s2)

/-- C4: the bridge adds the created future to the pending set on entry,
and on every exit path of the context manager — normal completion, a
rejected future, cancellation during the await, or an exception already
propagating from the body — the future is removed from the pending set. -/
theorem op_cb_registers_and_discards (s : PulseAsyncState) (fid : Nat)
    (excPending : Bool) (res : AwaitRes) :
    fid ∈ (op_cb_aenter s fid).waiting_futures ∧
    fid ∉ (op_cb_aexit (op_cb_aenter s fid) fid excPending res).2.waiting_futures ∧
    ∀ (s2 : PulseAsyncState), fid ∉ (op_cb_aexit s2 fid excPending res).2.waiting_futures := by
  refine ⟨?_, ?_, ?_⟩
  · by_cases h : fid ∈ s.waiting_futures <;> simp [op_cb_aenter, h]
  · cases excPending <;> cases res <;>
      simp [op_cb_aexit, op_cb_aenter, List.mem_filter]
  · intro s2
    cases excPending <;> cases res <;>
      simp [op_cb_aexit, List.mem_filter]

/-! Below: `disconnect` and `close` (idempotent teardown). -/

/-- Native calls performed during teardown. -/
inductive TearAct
  | ctxDisconnect
  | ctxUnref
  | loopStop
  deriving DecidableEq, Repr

/-- `PulseAsync.disconnect`: `if not self._ctx or
self._disconnected.is_set(): return` — otherwise issue
`pa.context_disconnect(self._ctx)` (the flags change later, via the state
callback). -/
def pulse_disconnect (s : PulseAsyncState) : PulseAsyncState × List TearAct :=
  if s.ctx.isNone ∨ s.disconnected then (s, [])
  else (s, [TearAct.ctxDisconnect])

/-- `PulseAsync.close`: `if not self._loop: return`; otherwise
`try: disconnect(); pa.context_unref(self._ctx); self._loop.stop(0)
finally: self._ctx = self._loop = None`. -/
def close (s : PulseAsyncState) : PulseAsyncState × List TearAct :=
  match s.loop with
  | none => (s, [])
  | some _ =>
    let d := pulse_disconnect s
    ({ d.1 with ctx := none, loop := none }, d.2 ++ [TearAct.ctxUnref, TearAct.loopStop])

/-- C5: `close()` is idempotent: after a first `close()`, every further
`close()` returns immediately, changing no state and performing no native
call; and whenever the instance still has a live loop (any exit path:
normal, error, or cancellation reaches `close` in the same way), the first
`close()` unrefs the context and stops the loop exactly once. -/
theorem close_idempotent (s : PulseAsyncState) :
    (close (close s).1 = ((close s).1, [])) ∧
    (s.loop.isSome = true →
      ((close s).2.count TearAct.ctxUnref = 1 ∧
       (close s).2.count TearAct.loopStop = 1)) := by
  constructor
  · cases hl : s.loop with
    | none => simp [close, hl]
    | some l => simp [close, hl, pulse_disconnect]
  · intro hl
    cases hl2 : s.loop with
    | none => rw [hl2] at hl; simp at hl
    | some l =>
      simp only [close, hl2, pulse_disconnect]
      split <;> simp [List.count_cons, List.count_append]

/-- A concrete instance for the C5 theorem: a freshly connected state is
torn down exactly once. -/
def stateC5 : PulseAsyncState :=
  { connected := true, disconnected := false, ctx := some 1, loop := some 1,
    waiting_futures := [], futures := fun _ => FutureState.pending,
    event_callback := false, events_queue := [] }

theorem close_idempotent_witness :
    (close stateC5).2.count TearAct.ctxUnref = 1 :=
  ((close_idempotent stateC5).2 rfl).1

/-! Below: `_ctx_init`, `__init__` and `connect`. -/

/-- `PulseAsync._ctx_init`: if a context exists, `disconnect()` it and
unref it; create a fresh context; clear both the `_connected` and the
`_disconnected` event; install the state and subscribe callbacks. -/
def ctx_init (s : PulseAsyncState) : PulseAsyncState :=
  let s1 := (pulse_disconnect s).1
  { s1 with ctx := some 1, connected := false, disconnected := false }

/-- `PulseAsync.__init__` (together with `init`): `_connected` cleared,
`_disconnected` initially set, `_ctx = _loop = None`; then `init` creates
the mainloop wrapper, runs `_ctx_init`, and initialises `event_callback =
None` and `waiting_futures = set()`. -/
def init_state : PulseAsyncState :=
  let s0 : PulseAsyncState :=
    { connected := false, disconnected := true, ctx := none, loop := none,
      waiting_futures := [], futures := fun _ => FutureState.pending,
      event_callback := false, events_queue := [] }
  let s1 := ctx_init { s0 with loop := some 1 }
  { s1 with event_callback := false, waiting_futures := [] }

/-- How a call to `connect` plays out: the native `context_connect` call
raises `CallError`; or the `_connected.wait()` side of the disconnect race
wins (the state callback delivered `ready` during the wait); or the
disconnect side wins (the state callback delivered `failed`, so
`_wait_disconnect_or` raises `PulseDisconnected`); or
`asyncio.wait_for` times out (after which `disconnect()` is issued and the
state callback delivers `terminated` before `_disconnected.wait()`
returns). -/
inductive ConnectOutcome
  | callError
  | readyOk
  | disconnectedDuringWait
  | timedOut
  deriving DecidableEq, Repr

/-- `PulseAsync.connect`: if `_connected` or `_disconnected` is set,
re-run `_ctx_init`; issue `context_connect` and await the disconnect race
on `_connected.wait()`.  On `CallError` or `PulseDisconnected`: set
`_disconnected` and raise `PulseError`.  On timeout: `disconnect()`, await
`_disconnected.wait()`, re-raise `TimeoutError`.  The effect of the state
callback that ran during each kind of wait is applied via
`pulse_state_cb`. -/
def connect (s : PulseAsyncState) (o : ConnectOutcome) : Option PulseErr × PulseAsyncState :=
  let s0 := if s.connected ∨ s.disconnected then ctx_init s else s
  match o with
  | .callError => (some PulseErr.pulseError, { s0 with disconnected := true })
  | .readyOk => (none, pulse_state_cb s0 CtxState.ready)
  | .disconnectedDuringWait =>
    let s1 := pulse_state_cb s0 CtxState.failed
    (some PulseErr.pulseError, { s1 with disconnected := true })
  | .timedOut =>
    let s1 := pulse_state_cb s0 CtxState.terminated
    (some PulseErr.timeoutError, s1)

/-- C6: whenever the native connect call fails (`CallError`) or the wait
for readiness ends in disconnection (`PulseDisconnected`), `connect` sets
the `_disconnected` signal and raises `PulseError`. -/
theorem connect_failure_raises (s : PulseAsyncState) :
    ((connect s ConnectOutcome.callError).1 = some PulseErr.pulseError ∧
     (connect s ConnectOutcome.callError).2.disconnected = true) ∧
    ((connect s ConnectOutcome.disconnectedDuringWait).1 = some PulseErr.pulseError ∧
     (connect s ConnectOutcome.disconnectedDuringWait).2.disconnected = true) :=
  ⟨⟨rfl, rfl⟩, ⟨rfl, rfl⟩⟩

/-! Below: the event-subscription slot (`subscribe_events` and
`_pulse_subscribe_cb`). -/

/-- The guard at the top of `PulseAsync.subscribe_events`: if
`event_callback` is already set, raise
`RuntimeError('Only a single subscribe_events generator can be used at a
time.')` before touching anything; otherwise create a fresh queue and
install `queue.put_nowait` as the callback. -/
def subscribe_events_setup (s : PulseAsyncState) : Option PulseErr × PulseAsyncState :=
  if s.event_callback then (some PulseErr.runtimeError, s)
  else (none, { s with event_callback := true, events_queue := [] })

/-- The `PA_SUBSCRIPTION_EVENT_FACILITY_MASK` / `..._TYPE_MASK` decoding
in `_pulse_subscribe_cb` (`0x000F` and `0x0030`). -/
def decodeEvent (ev idx : Nat) : PulseEventInfo :=
  { t := ev.land 0x30, facility := ev.land 0xF, index := idx }

/-- `PulseAsync._pulse_subscribe_cb`: `if not self.event_callback:
return`; otherwise decode the facility and type masks and feed the
`PulseEventInfo` to the callback (which is the active stream's
`queue.put_nowait`). -/
def pulse_subscribe_cb (s : PulseAsyncState) (ev idx : Nat) : PulseAsyncState :=
  if s.event_callback then
    { s with events_queue := s.events_queue ++ [decodeEvent ev idx] }
  else s

/-- C7: starting a second `subscribe_events` stream while one is active
raises the usage error (`RuntimeError` in the source; the spec's
`UsageError`) and leaves the state — in particular the active dispatch
slot and its queue — untouched, so a subsequently delivered server event
is still enqueued for the first stream. -/
theorem subscribe_events_second_raises (s : PulseAsyncState) (ev idx : Nat)
    (h : s.event_callback = true) :
    (subscribe_events_setup s).1 = some PulseErr.runtimeError ∧
    (subscribe_events_setup s).2 = s ∧
    (pulse_subscribe_cb (subscribe_events_setup s).2 ev idx).events_queue =
      s.events_queue ++ [decodeEvent ev idx] := by
  refine ⟨?_, ?_, ?_⟩ <;> simp [subscribe_events_setup, pulse_subscribe_cb, h]

/-- A concrete instance for the C7 theorem: with a stream active, a second
setup raises and the next event still lands in the first queue. -/
def stateC7 : PulseAsyncState :=
  { connected := true, disconnected := false, ctx := some 1, loop := some 1,
    waiting_futures := [], futures := fun _ => FutureState.pending,
    event_callback := true, events_queue := [] }

theorem subscribe_events_second_raises_witness :
    (subscribe_events_setup stateC7).1 = some PulseErr.runtimeError ∧
    (pulse_subscribe_cb (subscribe_events_setup stateC7).2 0x11 7).events_queue =
      [decodeEvent 0x11 7] := by
  have h := subscribe_events_second_raises stateC7 0x11 7 rfl
  exact ⟨h.1, h.2.2⟩

/-! Below: the mutual-exclusion invariant of the `_connected` and
`_disconnected` events. -/

/-- The two level-triggered signals are never both set. -/
def FlagsInv (s : PulseAsyncState) : Prop :=
  ¬ (s.connected = true ∧ s.disconnected = true)

/-- C10: the `_connected` and `_disconnected` events are mutually
exclusive: the invariant holds after construction, is (re-)established by
`_ctx_init`, and is preserved by the native state callback and by every
outcome of `connect` (native call failure, readiness, disconnection during
the wait, timeout). -/
theorem flags_mutually_exclusive :
    FlagsInv init_state ∧
    (∀ s : PulseAsyncState, FlagsInv (ctx_init s)) ∧
    (∀ (s : PulseAsyncState) (st : CtxState), FlagsInv s → FlagsInv (pulse_state_cb s st)) ∧
    (∀ (s : PulseAsyncState) (o : ConnectOutcome), FlagsInv (connect s o).2) := by
  refine ⟨?_, ?_, ?_, ?_⟩
  · simp [FlagsInv, init_state, ctx_init]
  · intro s
    simp [FlagsInv, ctx_init]
  · intro s st hs
    cases st <;> simp [FlagsInv, pulse_state_cb, CtxState.code] at * <;> exact hs
  · intro s o
    cases o with
    | callError =>
      simp only [connect, FlagsInv]
      split
      · simp [ctx_init]
      · rename_i h
        have h1 : s.connected = false := by
          rcases not_or.mp h with ⟨h1, _⟩
          simpa using h1
        simp [h1]
    | readyOk => simp [connect, pulse_state_cb, CtxState.code, FlagsInv]
    | disconnectedDuringWait => simp [connect, pulse_state_cb, CtxState.code, FlagsInv]
    | timedOut => simp [connect, pulse_state_cb, CtxState.code, FlagsInv]

theorem flags_mutually_exclusive_witness :
    FlagsInv (pulse_state_cb stateC5 CtxState.ready) ∧
    FlagsInv (connect stateC5 ConnectOutcome.callError).2 :=
  ⟨flags_mutually_exclusive.2.2.1 stateC5 CtxState.ready (by simp [FlagsInv, stateC5]),
   flags_mutually_exclusive.2.2.2 stateC5 ConnectOutcome.callError⟩

/-! Below: the peak-sample read callback and `get_peak_sample`.  Sample
values (`float32` in the source) are modelled as rationals; the buffer
returned by `stream_peek` is modelled as the list of samples it decodes
to (`none` for a NULL pointer, i.e. a hole/gap), together with the byte
count `bsVal` it reports (one FLOAT32 sample is 4 bytes). -/

/-- `read_cb` in `subscribe_peak_sample`: after `stream_peek`, `if not
buff or bs.value < 4: return` (nothing enqueued); otherwise
`queue.put_nowait(cast(buff, POINTER(c_float))[0])` — the first decoded
sample, unmodified; in the `finally`, `stream_drop` is called whenever the
reported byte count is nonzero (second component of the result). -/
def read_cb (buff : Option (List ℚ)) (bsVal : Nat) (q : List ℚ) : List ℚ × Bool :=
  match buff with
  | none => (q, bsVal != 0)
  | some samples =>
    if bsVal < 4 then (q, bsVal != 0)
    else (q ++ [samples.headD 0], bsVal != 0)

/-- C8 counterexample: the callback enqueues the decoded sample without
any scaling or clamping, so a full-width buffer whose sample decodes to 2
enqueues the scalar 2, which does not lie in [0, 1]. -/
theorem read_cb_range_cex :
    (read_cb (some [2]) 4 []).1 = [(2 : ℚ)] ∧ ¬ ((2 : ℚ) ≤ 1) := by
  constructor
  · rfl
  · norm_num

/-- C8 amended: a missing buffer (NULL pointer) or a buffer shorter than
one sample's byte width (4 bytes for FLOAT32) enqueues nothing; a
full-width buffer enqueues exactly one scalar — the first decoded sample,
unmodified, with no level scaling or clamping (so it lies in [0, 1] only
when the delivered sample does). -/
theorem read_cb_gap_and_enqueue (x : ℚ) (rest : List ℚ) (bsVal : Nat) (q : List ℚ) :
    (read_cb none bsVal q).1 = q ∧
    (bsVal < 4 → (read_cb (some (x :: rest)) bsVal q).1 = q) ∧
    (4 ≤ bsVal → (read_cb (some (x :: rest)) bsVal q).1 = q ++ [x]) := by
  refine ⟨rfl, ?_, ?_⟩
  · intro h
    simp [read_cb, h]
  · intro h
    simp [read_cb, Nat.not_lt.mpr h]

theorem read_cb_gap_and_enqueue_witness :
    (read_cb (some [(1 : ℚ)/2]) 2 []).1 = [] ∧
    (read_cb (some [(1 : ℚ)/2]) 4 []).1 = [(1 : ℚ)/2] :=
  ⟨(read_cb_gap_and_enqueue ((1 : ℚ)/2) [] 2 []).2.1 (by norm_num),
   (read_cb_gap_and_enqueue ((1 : ℚ)/2) [] 4 []).2.2 (by norm_num)⟩

/-- The running maximum kept by `get_peak_sample`'s internal `subscriber`
coroutine: `samples = [0.0]`, then `samples[0] = max(samples[0], volume)`
for each yielded volume. -/
def subscriber_fold (observed : List ℚ) : ℚ := observed.foldl max 0

/-- Operations `get_peak_sample` performs on its internal subscriber task
in the `asyncio.TimeoutError` branch: `task.cancel()`, then `await task`
with `CancelledError` suppressed. -/
inductive PeakEv
  | cancelTask
  | awaitTask
  deriving DecidableEq, Repr

/-- `PulseAsync.get_peak_sample`: run the subscriber under
`asyncio.wait_for(task, timeout)`.  If the subscriber raised before the
timeout (`errored = some e`), `wait_for` re-raises that error (the task is
already settled, nothing needs cancelling).  Otherwise the timeout fires:
the task is cancelled and awaited (suppressing `CancelledError`) and the
function returns `min(1.0, samples[0])`. -/
def get_peak_sample (observed : List ℚ) (errored : Option PulseErr) :
    Except PulseErr ℚ × List PeakEv :=
  match errored with
  | some e => (Except.error e, [])
  | none =>
    (Except.ok (min 1 (subscriber_fold observed)), [PeakEv.cancelTask, PeakEv.awaitTask])

theorem foldl_max_le_self (l : List ℚ) : ∀ a : ℚ, a ≤ l.foldl max a := by
  induction l with
  | nil => intro a; exact le_refl a
  | cons x xs ih =>
    intro a
    exact le_trans (le_max_left a x) (ih (max a x))

theorem mem_le_foldl_max (l : List ℚ) : ∀ (a x : ℚ), x ∈ l → x ≤ l.foldl max a := by
  induction l with
  | nil => intro a x hx; cases hx
  | cons y ys ih =>
    intro a x hx
    rcases List.mem_cons.mp hx with h | h
    · subst h
      exact le_trans (le_max_right a x) (foldl_max_le_self ys (max a x))
    · exact ih (max a y) x h

theorem foldl_max_mem (l : List ℚ) : ∀ a : ℚ, l.foldl max a = a ∨ l.foldl max a ∈ l := by
  induction l with
  | nil => intro a; exact Or.inl rfl
  | cons y ys ih =>
    intro a
    show List.foldl max (max a y) ys = a ∨ List.foldl max (max a y) ys ∈ y :: ys
    rcases ih (max a y) with h | h
    · rw [h]
      rcases max_choice a y with hm | hm
      · exact Or.inl hm
      · right
        rw [hm]
        exact List.mem_cons_self y ys
    · exact Or.inr (List.mem_cons_of_mem y h)

/-- C9: when the window elapses (timeout path), `get_peak_sample` returns
the maximum of the samples the internal subscription observed, clamped to
at most 1, and the internal task is cancelled and awaited; when the
subscription fails first, the error propagates (the task being already
settled).  The hypotheses state the peak-sample stream contract: at least
one sample was observed and samples are nonnegative. -/
theorem get_peak_sample_spec (l : List ℚ) (h1 : l ≠ []) (h2 : ∀ x ∈ l, 0 ≤ x) :
    (∃ M, M ∈ l ∧ (∀ x ∈ l, x ≤ M) ∧
      (get_peak_sample l none).1 = Except.ok (min 1 M)) ∧
    PeakEv.cancelTask ∈ (get_peak_sample l none).2 ∧
    PeakEv.awaitTask ∈ (get_peak_sample l none).2 ∧
    ∀ e, (get_peak_sample l (some e)).1 = Except.error e := by
  refine ⟨?_, by simp [get_peak_sample], by simp [get_peak_sample], fun e => rfl⟩
  refine ⟨subscriber_fold l, ?_, ?_, rfl⟩
  · rcases foldl_max_mem l 0 with h | h
    · obtain ⟨y, ys, rfl⟩ := List.exists_cons_of_ne_nil h1
      have hy0 : y ≤ 0 := by
        have hle := mem_le_foldl_max (y :: ys) 0 y (List.mem_cons_self y ys)
        rw [h] at hle
        exact hle
      have hy : y = 0 := le_antisymm hy0 (h2 y (List.mem_cons_self y ys))
      show subscriber_fold (y :: ys) ∈ y :: ys
      rw [subscriber_fold, h, ← hy]
      exact List.mem_cons_self y ys
    · exact h
  · intro x hx
    exact mem_le_foldl_max l 0 x hx

theorem get_peak_sample_spec_witness :
    ∃ M, M ∈ [(1 : ℚ)/2] ∧ (∀ x ∈ [(1 : ℚ)/2], x ≤ M) ∧
      (get_peak_sample [(1 : ℚ)/2] none).1 = Except.ok (min 1 M) :=
  (get_peak_sample_spec [(1 : ℚ)/2] (by simp) (by norm_num)).1

end PulsectlAsyncio
